import Mathlib

/-!
# MicroS conversational pipeline — shallow embedding

A shallow embedding of the agentic conversation pipeline of the MicroS
nutrition app (src/agentic), faithful to the Python source:

* `heuristicIntent`, `orchestratorRun`  — src/agentic/agents/orchestrator.py
* `evaluatorRun`                        — src/agentic/agents/evaluator_agent.py
* `elicitationRun`                      — src/agentic/agents/elicitation_agent.py
* `barcodeRun`                          — src/agentic/agents/barcode_agent.py
* `searchRun`                           — src/agentic/agents/food_search_agent.py
* `loggingRun`                          — src/agentic/agents/logging_agent.py
* `analysisRun`                         — src/agentic/agents/analysis_agent.py
* `recommendRun`                        — src/agentic/agents/recommendation_agent.py
* `tool_log_meal`, `tool_compute_day`, `tool_get_user_goals`
                                        — src/agentic/tools/ (the package, which
                                          shadows the older module src/agentic/tools.py
                                          under Python import precedence)
* `compute_totals`                      — src/app/nutrition.py over the
                                          NutritionTotals schema (src/app/schemas.py)
* `runTurn`, `loopStep`                 — src/agentic/graph.py (create_graph / run_agent,
                                          and the llm-node/tools-node cycle built by
                                          add_agent_tool_pipeline)

Python floats are modelled as rationals (ℚ); Python dictionary values for the
entity bag are modelled by `EntVal`, which distinguishes an absent key from a
key that is present with value None — a distinction `dict.get(key, default)`
makes and which the pipeline's behaviour depends on.  External collaborators
(the language model, the SQL database, the wall clock) are oracle parameters
collected in `Collab`; everything that is repository code is translated
directly from the source.
-/

namespace MicroS

/- The core rational operations are shipped irreducible; restoring default
reducibility lets `decide` evaluate the embedding on concrete inputs (the
kernel re-checks every such proof). -/
set_option allowUnsafeReducibility true in
attribute [semireducible] Rat.mul Rat.add Rat.div Rat.sub Rat.neg Rat.inv Rat.blt

/-! ## Python string and number semantics -/

/-- Digit value of an ASCII digit character. -/
def digitVal (c : Char) : ℕ := c.toNat - 48

/-- Natural number denoted by a list of ASCII digits (most significant first). -/
def natOfDigits (l : List Char) : ℕ := l.foldl (fun a c => 10 * a + digitVal c) 0

/-- Word character in the sense of the `re` module's `\b` and `\w` (ASCII mode
of the inputs used here): letters, digits and underscore. -/
def isWordChar (c : Char) : Bool := c.isAlphanum || c = '_'

/-- Whether the next character of `l` is a word character (false at end of
input) — the negation is the word boundary `\b`. -/
def wordAt : List Char → Bool
  | [] => false
  | c :: _ => isWordChar c

/-- `needle` occurs as a contiguous sublist of the second argument
(Python's `needle in haystack` on strings). -/
def subAux (needle : List Char) : List Char → Bool
  | [] => needle.isEmpty
  | c :: rest => needle.isPrefixOf (c :: rest) || subAux needle rest

/-- Python `sub in hay` for strings. -/
def pyContains (hay sub : String) : Bool := subAux sub.toList hay.toList

/-- Python `any(k in text for k in keys)`. -/
def hasAny (text : String) (keys : List String) : Bool :=
  keys.any (fun k => pyContains text k)

/-- Python `str.strip()` on the character list (whitespace at both ends). -/
def pyStripList (l : List Char) : List Char :=
  ((l.dropWhile Char.isWhitespace).reverse.dropWhile Char.isWhitespace).reverse

/-- Python `s.strip()`. -/
def pyStrip (s : String) : String := String.mk (pyStripList s.toList)

/-- Python `s.lower()` (ASCII case folding suffices for these inputs). -/
def pyLower (s : String) : String := String.mk (s.toList.map Char.toLower)

/-- Python `s.startswith(pre)`. -/
def pyStartsWith (s pre : String) : Bool := pre.toList.isPrefixOf s.toList

/-- Mantissa-and-exponent part of Python `float(s)` (after an optional sign):
`digits [ "." digits ] [ ("e"|"E") [sign] digits ]`, where at least one digit
must appear around the decimal point.  The `inf`/`nan` words and digit
underscores accepted by CPython are not modelled (no grams value in scope
uses them). -/
def pyFloatCore (l : List Char) : Option ℚ :=
  let (ip, r1) := l.span Char.isDigit
  let (fp, r2) :=
    match r1 with
    | '.' :: t => t.span Char.isDigit
    | _ => ([], r1)
  if ip.isEmpty ∧ fp.isEmpty then none
  else
    let mant : ℚ := (natOfDigits ip : ℚ) + (natOfDigits fp : ℚ) / ((10 : ℚ) ^ fp.length)
    match r2 with
    | [] => some mant
    | 'e' :: t => pyFloatExp mant t
    | 'E' :: t => pyFloatExp mant t
    | _ => none
where
  /-- Exponent part: optional sign then a nonempty digit run, ending the string. -/
  pyFloatExp (mant : ℚ) (t : List Char) : Option ℚ :=
    let (neg, t) := match t with
      | '-' :: r => (true, r)
      | '+' :: r => (false, r)
      | r => (false, r)
    let (ds, rest) := t.span Char.isDigit
    if ds.isEmpty ∨ rest ≠ [] then none
    else
      let e : ℤ := if neg then -(natOfDigits ds : ℤ) else (natOfDigits ds : ℤ)
      some (mant * (10 : ℚ) ^ e)

/-- Python `float(s)` on an already-stripped string: optional sign then
`pyFloatCore`.  Returns `none` where CPython raises ValueError. -/
def pyFloat (s : String) : Option ℚ :=
  match s.toList with
  | '+' :: t => pyFloatCore t
  | '-' :: t => (pyFloatCore t).map Neg.neg
  | t => pyFloatCore t

/-! ## Entity values (Python dictionary values of the entity bag) -/

/-- A value bound to an entity key in the `entities` dict.  `absent` means the
key is missing from the dict; `pynone` is the key bound to Python `None`
(the heuristic extractor initialises every key that way); `other` stands for
a JSON composite (list/object) a model reply could put there, on which
`float()` raises. -/
inductive EntVal where
  | absent
  | pynone
  | str (s : String)
  | num (q : ℚ)
  | int (n : ℤ)
  | other
deriving DecidableEq, Repr

/-- Python truthiness of an entity value (`absent` in a `dict.get(k)` position
reads as `None`, hence falsy). -/
def EntVal.truthy : EntVal → Bool
  | .absent => false
  | .pynone => false
  | .str s => if s = "" then false else true
  | .num q => if q = 0 then false else true
  | .int n => if n = 0 then false else true
  | .other => true

/-- `dict.get(key, default)`: the default applies only when the key is absent,
not when it is present with value `None`. -/
def EntVal.getD (v d : EntVal) : EntVal :=
  match v with
  | .absent => d
  | w => w

/-- Python `a or b` on entity values. -/
def entOr (a b : EntVal) : EntVal := if a.truthy then a else b

/-- Rendering of an entity value inside an f-string (`str()`;
`str(None) = "None"`). `fmtPyFloat` below renders floats. -/
def fmtPyFloatPad (fp : ℕ) : String :=
  let t := toString fp
  String.mk (List.replicate (6 - t.length) '0') ++ t

/-- Drop trailing `'0'` characters. -/
def trimRightZeros (s : String) : String :=
  String.mk (s.toList.reverse.dropWhile (· = '0')).reverse

/-- Python `repr`/f-string rendering of a float modelled as ℚ: integral values
render as `n.0`; values with up to six decimal places render exactly; other
rationals (not representable by the floats that reach these f-strings) fall
back to a fraction rendering. -/
def fmtPyFloat (q : ℚ) : String :=
  if q.den = 1 then toString q.num ++ ".0"
  else
    let sgn := if q < 0 then "-" else ""
    let a := |q|
    let scaled := a * 1000000
    if scaled.den = 1 then
      let n := scaled.num.toNat
      let fs := trimRightZeros (fmtPyFloatPad (n % 1000000))
      sgn ++ toString (n / 1000000) ++ "." ++ (if fs = "" then "0" else fs)
    else sgn ++ toString a.num ++ "/" ++ toString a.den

/-- Python `f"{x:.1f}"` on a float modelled as ℚ (rounding mode at half is a
float artefact in CPython; here round-half-up via `round`). -/
def fmt1 (q : ℚ) : String :=
  let n := round (10 * q)
  let sgn := if n < 0 then "-" else ""
  let a := n.natAbs
  sgn ++ toString (a / 10) ++ "." ++ toString (a % 10)

/-- `str()` of an entity value as interpolated into an f-string. -/
def entValStr : EntVal → String
  | .absent => "None"
  | .pynone => "None"
  | .str s => s
  | .num q => fmtPyFloat q
  | .int n => toString n
  | .other => "<object>"

/-- The entity bag: the six keys used by the pipeline
(src/agentic/state.py, src/agentic/agents/orchestrator.py). -/
structure Entities where
  food_name : EntVal := .absent
  grams : EntVal := .absent
  upc : EntVal := .absent
  meal_type : EntVal := .absent
  date : EntVal := .absent
  food_id : EntVal := .absent
deriving DecidableEq, Repr

/-! ## The heuristic extractor's regular-expression searches
(src/agentic/agents/orchestrator.py, `_heuristic_intent`) -/

/-- Match of `(\d+(?:\.\d+)?)\s*(g|grams?)\b` anchored at the head of `l`:
a digit run, an optional fraction, optional whitespace, then `g`, `gram` or
`grams` followed by a word boundary (the regex alternation tries `g` first
and backtracks to `grams?`). -/
def gramsAt (l : List Char) : Option ℚ :=
  let (ds, r1) := l.span Char.isDigit
  if ds.isEmpty then none
  else
    let (fs, r2) :=
      match r1 with
      | '.' :: t =>
          let p := t.span Char.isDigit
          if p.1.isEmpty then ([], r1) else p
      | _ => ([], r1)
    let r3 := r2.dropWhile Char.isWhitespace
    let q : ℚ := (natOfDigits ds : ℚ) + (natOfDigits fs : ℚ) / ((10 : ℚ) ^ fs.length)
    match r3 with
    | 'g' :: rest =>
        if ¬ wordAt rest then some q
        else
          match rest with
          | 'r' :: 'a' :: 'm' :: rest2 =>
              match rest2 with
              | 's' :: rest3 => if ¬ wordAt rest3 then some q else none
              | _ => if ¬ wordAt rest2 then some q else none
          | _ => none
    | _ => none

/-- `re.search` semantics: try each position left to right. -/
def findGramsAux : List Char → Option ℚ
  | [] => none
  | c :: t => gramsAt (c :: t) <|> findGramsAux t

/-- First match of the grams pattern in a string. -/
def findGrams (s : String) : Option ℚ := findGramsAux s.toList

/-- Match of `food_id\s*=\s*(\d+)` anchored at the head of `l`. -/
def foodIdAt (l : List Char) : Option ℤ :=
  if "food_id".toList.isPrefixOf l then
    match (l.drop 7).dropWhile Char.isWhitespace with
    | '=' :: r2 =>
        let (ds, _) := (r2.dropWhile Char.isWhitespace).span Char.isDigit
        if ds.isEmpty then none else some (natOfDigits ds : ℤ)
    | _ => none
  else none

/-- `re.search` scan for the food_id pattern. -/
def findFoodIdAux : List Char → Option ℤ
  | [] => none
  | c :: t => foodIdAt (c :: t) <|> findFoodIdAux t

/-- First match of `food_id\s*=\s*(\d+)` in a string. -/
def findFoodId (s : String) : Option ℤ := findFoodIdAux s.toList

/-- Match of `\b(\d{12})\b` at the head of `l`, given the previous character
(for the leading word boundary). -/
def upcAt (prev : Option Char) (l : List Char) : Option String :=
  let preOk := match prev with
    | none => true
    | some c => ¬ isWordChar c
  if preOk then
    let ds := l.take 12
    if ds.length = 12 ∧ ds.all Char.isDigit ∧ ¬ wordAt (l.drop 12) then
      some (String.mk ds)
    else none
  else none

/-- `re.search` scan for a 12-digit run with word boundaries. -/
def findUpcAux (prev : Option Char) : List Char → Option String
  | [] => none
  | c :: t => upcAt prev (c :: t) <|> findUpcAux (some c) t

/-- First 12-digit run (with word boundaries) in a string. -/
def findUpc (s : String) : Option String := findUpcAux none s.toList

/-- First meal-type keyword contained in the text, in the source's fixed
order breakfast, lunch, dinner, snack. -/
def firstMealType (text : String) : Option String :=
  (["breakfast", "lunch", "dinner", "snack"].find? (fun mt => pyContains text mt))

/-! ## Data model -/

/-- Food summary dict produced by `tool_search_food` / `tool_lookup_upc` /
`tool_list_foods` (src/agentic/tools/food.py). -/
structure FoodSum where
  id : ℤ
  name : String
  brand : String
  upc : Option String
  calories : ℚ
  protein_g : ℚ
  fat_g : ℚ
  carbs_g : ℚ

/-- Success dict of `tool_log_meal` (src/agentic/tools/meal.py).  `grams`
stores whatever value the caller passed (the logging agent's candidate flow
passes the raw entity). -/
structure LogRecord where
  id : ℤ
  user_id : ℤ
  food_id : ℤ
  food_name : String
  grams : EntVal
  meal_type : EntVal
  logged_at : String

/-- Result of `tool_log_meal`: an error dict or a success dict. -/
inductive LogResult where
  | error (msg : String)
  | ok (r : LogRecord)

/-- The NutritionTotals schema (src/app/schemas.py): every field defaults
to 0.0; `tool_compute_day` (src/agentic/tools/summary.py) surfaces all of
them through `totals.dict()`. -/
structure Totals where
  calories : ℚ := 0
  protein_g : ℚ := 0
  fat_g : ℚ := 0
  carbs_g : ℚ := 0
  vitamin_a_rae : ℚ := 0
  vitamin_d_iu : ℚ := 0
  vitamin_e_mg : ℚ := 0
  vitamin_k_mcg : ℚ := 0
  vitamin_c_mg : ℚ := 0
  vitamin_b1_mg : ℚ := 0
  vitamin_b2_mg : ℚ := 0
  vitamin_b3_mg : ℚ := 0
  vitamin_b5_mg : ℚ := 0
  vitamin_b6_mg : ℚ := 0
  vitamin_b7_mcg : ℚ := 0
  vitamin_b9_mcg : ℚ := 0
  vitamin_b12_mcg : ℚ := 0
  choline_mg : ℚ := 0
  calcium_mg : ℚ := 0
  phosphorus_mg : ℚ := 0
  magnesium_mg : ℚ := 0
  sodium_mg : ℚ := 0
  potassium_mg : ℚ := 0
  chloride_mg : ℚ := 0
  sulfur_mg : ℚ := 0
  iron_mg : ℚ := 0
  zinc_mg : ℚ := 0
  copper_mg : ℚ := 0
  manganese_mg : ℚ := 0
  iodine_mcg : ℚ := 0
  selenium_mcg : ℚ := 0
  chromium_mcg : ℚ := 0
  molybdenum_mcg : ℚ := 0
  fluoride_mg : ℚ := 0

/-- The keys of the totals dict (`NutritionTotals.dict()`), in schema order. -/
def totalsKeys : List String :=
  ["calories", "protein_g", "fat_g", "carbs_g",
   "vitamin_a_rae", "vitamin_d_iu", "vitamin_e_mg", "vitamin_k_mcg",
   "vitamin_c_mg", "vitamin_b1_mg", "vitamin_b2_mg", "vitamin_b3_mg",
   "vitamin_b5_mg", "vitamin_b6_mg", "vitamin_b7_mcg", "vitamin_b9_mcg",
   "vitamin_b12_mcg", "choline_mg",
   "calcium_mg", "phosphorus_mg", "magnesium_mg", "sodium_mg",
   "potassium_mg", "chloride_mg", "sulfur_mg",
   "iron_mg", "zinc_mg", "copper_mg", "manganese_mg", "iodine_mcg",
   "selenium_mcg", "chromium_mcg", "molybdenum_mcg", "fluoride_mg"]

/-- Dictionary lookup `totals[key]` / `key in totals` on the totals dict. -/
def Totals.get? (t : Totals) : String → Option ℚ
  | "calories" => some t.calories
  | "protein_g" => some t.protein_g
  | "fat_g" => some t.fat_g
  | "carbs_g" => some t.carbs_g
  | "vitamin_a_rae" => some t.vitamin_a_rae
  | "vitamin_d_iu" => some t.vitamin_d_iu
  | "vitamin_e_mg" => some t.vitamin_e_mg
  | "vitamin_k_mcg" => some t.vitamin_k_mcg
  | "vitamin_c_mg" => some t.vitamin_c_mg
  | "vitamin_b1_mg" => some t.vitamin_b1_mg
  | "vitamin_b2_mg" => some t.vitamin_b2_mg
  | "vitamin_b3_mg" => some t.vitamin_b3_mg
  | "vitamin_b5_mg" => some t.vitamin_b5_mg
  | "vitamin_b6_mg" => some t.vitamin_b6_mg
  | "vitamin_b7_mcg" => some t.vitamin_b7_mcg
  | "vitamin_b9_mcg" => some t.vitamin_b9_mcg
  | "vitamin_b12_mcg" => some t.vitamin_b12_mcg
  | "choline_mg" => some t.choline_mg
  | "calcium_mg" => some t.calcium_mg
  | "phosphorus_mg" => some t.phosphorus_mg
  | "magnesium_mg" => some t.magnesium_mg
  | "sodium_mg" => some t.sodium_mg
  | "potassium_mg" => some t.potassium_mg
  | "chloride_mg" => some t.chloride_mg
  | "sulfur_mg" => some t.sulfur_mg
  | "iron_mg" => some t.iron_mg
  | "zinc_mg" => some t.zinc_mg
  | "copper_mg" => some t.copper_mg
  | "manganese_mg" => some t.manganese_mg
  | "iodine_mcg" => some t.iodine_mcg
  | "selenium_mcg" => some t.selenium_mcg
  | "chromium_mcg" => some t.chromium_mcg
  | "molybdenum_mcg" => some t.molybdenum_mcg
  | "fluoride_mg" => some t.fluoride_mg
  | _ => none

/-- A Food row (src/app/models.py) as consumed by `compute_totals`: the four
macronutrients are used without a null guard; every micronutrient is read
through `(food.x or 0)`, hence `Option`. -/
structure FoodT where
  name : String
  calories : ℚ
  protein_g : ℚ
  fat_g : ℚ
  carbs_g : ℚ
  vitamin_a_rae : Option ℚ := none
  vitamin_d_iu : Option ℚ := none
  vitamin_e_mg : Option ℚ := none
  vitamin_k_mcg : Option ℚ := none
  vitamin_c_mg : Option ℚ := none
  vitamin_b1_mg : Option ℚ := none
  vitamin_b2_mg : Option ℚ := none
  vitamin_b3_mg : Option ℚ := none
  vitamin_b5_mg : Option ℚ := none
  vitamin_b6_mg : Option ℚ := none
  vitamin_b7_mcg : Option ℚ := none
  vitamin_b9_mcg : Option ℚ := none
  vitamin_b12_mcg : Option ℚ := none
  choline_mg : Option ℚ := none
  calcium_mg : Option ℚ := none
  phosphorus_mg : Option ℚ := none
  magnesium_mg : Option ℚ := none
  sodium_mg : Option ℚ := none
  potassium_mg : Option ℚ := none
  chloride_mg : Option ℚ := none
  sulfur_mg : Option ℚ := none
  iron_mg : Option ℚ := none
  zinc_mg : Option ℚ := none
  copper_mg : Option ℚ := none
  manganese_mg : Option ℚ := none
  iodine_mcg : Option ℚ := none
  selenium_mcg : Option ℚ := none
  chromium_mcg : Option ℚ := none
  molybdenum_mcg : Option ℚ := none
  fluoride_mg : Option ℚ := none

/-- A MealLog row (src/app/models.py) joined with its food, as read back by
`tool_compute_day`.  `date` is the calendar date of `logged_at`; the source's
datetime window `[combine(d, min), combine(d, max)]` selects exactly the rows
whose `logged_at` falls on the date `d`. -/
structure MealRow where
  id : ℤ
  user_id : ℤ
  date : String
  logged_at : String
  food : FoodT
  grams : ℚ
  meal_type : Option String

/-- One meal entry of the day summary dict (src/agentic/tools/summary.py). -/
structure MealOut where
  id : ℤ
  food_name : Option String
  grams : ℚ
  meal_type : Option String
  logged_at : String

/-- Return dict of `tool_compute_day`. -/
structure DayData where
  date : String
  meal_count : ℕ
  totals : Totals
  meals : List MealOut

/-- Return of `tool_get_user_goals` (src/agentic/tools/goals.py): the error
dict when the user row is missing, else the (possibly empty) goals map,
modelled as an association list in dict insertion order. -/
inductive GoalsVal where
  | err
  | goals (l : List (String × ℚ))

/-- Python truthiness of the goals return (`{"error": ...}` is a nonempty
dict, hence truthy). -/
def GoalsVal.truthy : GoalsVal → Bool
  | .err => true
  | .goals l => if l = [] then false else true

/-- `goals.items()` restricted to numeric-valued entries: the error dict's one
entry has a string value, on which the consumers' `float(goal)` raises and is
skipped (`except: continue`) or, in the analysis loop, is filtered out by
`nutrient in totals`; either way it contributes nothing. -/
def GoalsVal.items : GoalsVal → List (String × ℚ)
  | .err => []
  | .goals l => l

/-- One recommendation dict (src/agentic/agents/recommendation_agent.py). -/
structure RecItem where
  food_id : ℤ
  name : String
  brand : String
  coverage : List (String × ℚ)
  calories_per_100g : ℚ

/-- The flat conversation state (GraphState, src/agentic/state.py, plus the
`day_data` key the analysis agent adds).  The `messages` list is internal to
the llm/tools cycle and never read by the finalize stages, so it is not
carried here. -/
structure ConvState where
  user_id : ℤ
  input_text : String
  intent : Option String
  entities : Entities
  food_candidates : List FoodSum
  selected_food : Option FoodSum
  log_entry : Option LogRecord
  day_data : Option DayData
  day_totals : Option Totals
  goals : Option GoalsVal
  recommendations : List RecItem
  response : String
  needs_clarification : Bool
  questions : List String
  confidence : ℚ

/-- Initial state built by `run_agent` (src/agentic/graph.py): every field at
its default, `entities` the empty dict (all keys absent). -/
def initState (uid : ℤ) (msg : String) : ConvState :=
  { user_id := uid, input_text := msg, intent := none, entities := {},
    food_candidates := [], selected_food := none, log_entry := none,
    day_data := none, day_totals := none, goals := none,
    recommendations := [], response := "", needs_clarification := false,
    questions := [], confidence := 0 }

/-! ## Python numeric conversions used by the logging agent -/

/-- Python `int(float)`: truncation toward zero. -/
def ratTrunc (q : ℚ) : ℤ := if 0 ≤ q then ⌊q⌋ else ⌈q⌉

/-- Python `int(s)` on a string: optional sign, then decimal digits only. -/
def parseIntStr (s : String) : Option ℤ :=
  match s.toList with
  | '+' :: t => if !t.isEmpty && t.all Char.isDigit then some (natOfDigits t : ℤ) else none
  | '-' :: t => if !t.isEmpty && t.all Char.isDigit then some (-(natOfDigits t : ℤ)) else none
  | t => if !t.isEmpty && t.all Char.isDigit then some (natOfDigits t : ℤ) else none

/-- Python `int(x)` on an entity value; `.error` where CPython raises. -/
def pyIntOf : EntVal → Except String ℤ
  | .int n => .ok n
  | .num q => .ok (ratTrunc q)
  | .str s =>
      match parseIntStr (pyStrip s) with
      | some n => .ok n
      | none => .error "ValueError: invalid literal for int() with base 10"
  | _ => .error "TypeError: int() argument must not be None"

/-- Python `float(x)` on an entity value; `.error` where CPython raises. -/
def pyFloatOf : EntVal → Except String ℚ
  | .num q => .ok q
  | .int n => .ok (n : ℚ)
  | .str s =>
      match pyFloat (pyStrip s) with
      | some q => .ok q
      | none => .error "ValueError: could not convert string to float"
  | _ => .error "TypeError: float() argument must not be None"

/-! ## External collaborators (oracles) and the database-backed tools -/

/-- The slice of the SQL database that `tool_log_meal` consults: user ids,
food rows (id and name), the id and timestamp the insert produces. -/
structure Db where
  users : List ℤ
  foods : List (ℤ × String)
  nextLogId : ℤ
  nowIso : String

/-- A Food row as scored by the recommendation agent: `attrs` models
`getattr(food, key, None)` restricted to numeric attributes (a missing or
non-numeric attribute fails the `isinstance(value, (int, float))` guard
exactly as a `none` lookup here). -/
structure FoodN where
  id : ℤ
  name : String
  brand : String
  calories : ℚ
  attrs : List (String × ℚ)

/-- Numeric attribute lookup on a food row. -/
def FoodN.attr? (f : FoodN) (key : String) : Option ℚ :=
  (f.attrs.find? (fun kv => kv.1 = key)).map (·.2)

/-- Result of the orchestrator's model call, after `json.loads` and field
extraction: `.exc` covers every exception path (model unavailable at call
time, malformed JSON, or a `float()` failure on the supplied confidence),
which falls back to the heuristic; `.ok` carries `result.get("intent")`,
`result.get("entities", {})` and the parsed optional confidence
(`none` when the key is absent, in which case 0.7 is used). -/
inductive ClassifyResult where
  | exc
  | ok (intent : Option String) (ents : Entities) (conf : Option ℚ)

/-- All collaborator behaviour for one turn: the language model, the
database-backed lookups, and the wall clock.  `llmPresent` is whether
`get_llm()` succeeded when the graph was built; `loopContent` is the content
of the model's final (tool-free) reply in the llm/tools cycle, which the llm
node writes into `response` before the post handler runs. -/
structure Collab where
  llmPresent : Bool
  classify : ClassifyResult
  loopContent : String
  nameResults : String → List FoodSum
  upcResults : String → List FoodSum
  listFoods : List FoodSum
  db : Db
  mealRows : List MealRow
  goalsDb : GoalsVal
  recFoods : List FoodN
  todayIso : String
  yesterdayIso : String

/-- `tool_search_food` (src/agentic/tools/food.py): name search with a row
limit applied by the query. -/
def tool_search_food (c : Collab) (query : String) (limit : ℕ) : List FoodSum :=
  (c.nameResults query).take limit

/-- `tool_lookup_upc` (src/agentic/tools/food.py): exact UPC lookup. -/
def tool_lookup_upc (c : Collab) (upc : String) : List FoodSum :=
  c.upcResults upc

/-- `tool_list_foods` (src/agentic/tools/food.py): browse foods ordered by id,
paginated. -/
def tool_list_foods (c : Collab) (limit : ℕ) : List FoodSum :=
  c.listFoods.take limit

/-- `tool_log_meal` (src/agentic/tools/meal.py): verify the user row, then the
food row, then insert the MealLog.  The `meal_type` value is passed to the
`MealLog` constructor explicitly, so the column default `"snack"` of
src/app/models.py does not apply even when the value is `None` — an
explicitly assigned attribute is inserted as given. -/
def tool_log_meal (db : Db) (user_id : ℤ) (food_id : ℤ) (grams : EntVal)
    (meal_type : EntVal) : LogResult :=
  if (db.users.find? (fun u => u == user_id)).isNone then .error "User not found"
  else
    match db.foods.find? (fun f => f.1 == food_id) with
    | none => .error "Food not found"
    | some f =>
        .ok { id := db.nextLogId, user_id := user_id, food_id := food_id,
              food_name := f.2, grams := grams, meal_type := meal_type,
              logged_at := db.nowIso }

/-- `tool_get_user_goals` (src/agentic/tools/goals.py): the goals map of the
turn's user, or the error dict when the user row is missing. -/
def tool_get_user_goals (c : Collab) (_user_id : ℤ) : GoalsVal :=
  c.goalsDb

/-- Python `(x or 0)` on a nullable float column. -/
def orZero (o : Option ℚ) : ℚ := o.getD 0

/-- One step of `compute_totals` (src/app/nutrition.py): add one meal log,
scaling the food's per-100g values by `grams / 100`; every micronutrient is
read through `(food.x or 0)`. -/
def addLog (t : Totals) (r : MealRow) : Totals :=
  let sf := r.grams / 100
  { calories := t.calories + r.food.calories * sf,
    protein_g := t.protein_g + r.food.protein_g * sf,
    fat_g := t.fat_g + r.food.fat_g * sf,
    carbs_g := t.carbs_g + r.food.carbs_g * sf,
    vitamin_a_rae := t.vitamin_a_rae + orZero r.food.vitamin_a_rae * sf,
    vitamin_d_iu := t.vitamin_d_iu + orZero r.food.vitamin_d_iu * sf,
    vitamin_e_mg := t.vitamin_e_mg + orZero r.food.vitamin_e_mg * sf,
    vitamin_k_mcg := t.vitamin_k_mcg + orZero r.food.vitamin_k_mcg * sf,
    vitamin_c_mg := t.vitamin_c_mg + orZero r.food.vitamin_c_mg * sf,
    vitamin_b1_mg := t.vitamin_b1_mg + orZero r.food.vitamin_b1_mg * sf,
    vitamin_b2_mg := t.vitamin_b2_mg + orZero r.food.vitamin_b2_mg * sf,
    vitamin_b3_mg := t.vitamin_b3_mg + orZero r.food.vitamin_b3_mg * sf,
    vitamin_b5_mg := t.vitamin_b5_mg + orZero r.food.vitamin_b5_mg * sf,
    vitamin_b6_mg := t.vitamin_b6_mg + orZero r.food.vitamin_b6_mg * sf,
    vitamin_b7_mcg := t.vitamin_b7_mcg + orZero r.food.vitamin_b7_mcg * sf,
    vitamin_b9_mcg := t.vitamin_b9_mcg + orZero r.food.vitamin_b9_mcg * sf,
    vitamin_b12_mcg := t.vitamin_b12_mcg + orZero r.food.vitamin_b12_mcg * sf,
    choline_mg := t.choline_mg + orZero r.food.choline_mg * sf,
    calcium_mg := t.calcium_mg + orZero r.food.calcium_mg * sf,
    phosphorus_mg := t.phosphorus_mg + orZero r.food.phosphorus_mg * sf,
    magnesium_mg := t.magnesium_mg + orZero r.food.magnesium_mg * sf,
    sodium_mg := t.sodium_mg + orZero r.food.sodium_mg * sf,
    potassium_mg := t.potassium_mg + orZero r.food.potassium_mg * sf,
    chloride_mg := t.chloride_mg + orZero r.food.chloride_mg * sf,
    sulfur_mg := t.sulfur_mg + orZero r.food.sulfur_mg * sf,
    iron_mg := t.iron_mg + orZero r.food.iron_mg * sf,
    zinc_mg := t.zinc_mg + orZero r.food.zinc_mg * sf,
    copper_mg := t.copper_mg + orZero r.food.copper_mg * sf,
    manganese_mg := t.manganese_mg + orZero r.food.manganese_mg * sf,
    iodine_mcg := t.iodine_mcg + orZero r.food.iodine_mcg * sf,
    selenium_mcg := t.selenium_mcg + orZero r.food.selenium_mcg * sf,
    chromium_mcg := t.chromium_mcg + orZero r.food.chromium_mcg * sf,
    molybdenum_mcg := t.molybdenum_mcg + orZero r.food.molybdenum_mcg * sf,
    fluoride_mg := t.fluoride_mg + orZero r.food.fluoride_mg * sf }

/-- `compute_totals` (src/app/nutrition.py). -/
def compute_totals (logs : List MealRow) : Totals :=
  logs.foldl addLog {}

/-- Validity check behind `datetime.fromisoformat` for the plain-date strings
this pipeline passes: `YYYY-MM-DD` with in-range month and day (the fuller
datetime forms CPython ≥3.11 also accepts never arise here; day range is
approximated by 1..31). -/
def isIsoDate (s : String) : Bool :=
  match s.toList with
  | [y1, y2, y3, y4, '-', m1, m2, '-', d1, d2] =>
      [y1, y2, y3, y4, m1, m2, d1, d2].all Char.isDigit &&
      (let m := 10 * digitVal m1 + digitVal m2
       let d := 10 * digitVal d1 + digitVal d2
       decide (1 ≤ m ∧ m ≤ 12 ∧ 1 ≤ d ∧ d ≤ 31))
  | _ => false

/-- `datetime.fromisoformat(s).date().isoformat()`: the date back as a string
when `s` parses, `none` where CPython raises ValueError. -/
def parseIsoDate (s : String) : Option String :=
  if isIsoDate s then some s else none

/-- The aggregation body of `tool_compute_day` once the target date is known:
select the user's meal logs of that date and aggregate them; the totals dict
is `NutritionTotals.dict()` — all 34 schema keys. -/
def mkDayData (c : Collab) (user_id : ℤ) (target : String) : DayData :=
  let logs := c.mealRows.filter (fun r => r.user_id == user_id && r.date == target)
  { date := target,
    meal_count := logs.length,
    totals := compute_totals logs,
    meals := logs.map (fun r =>
      { id := r.id, food_name := some r.food.name, grams := r.grams,
        meal_type := r.meal_type, logged_at := r.logged_at }) }

/-- `tool_compute_day` (src/agentic/tools/summary.py): parse the date (an
unparsable string propagates as a raised ValueError, which nothing in the
pipeline catches) or default to the current UTC date, then aggregate. -/
def tool_compute_day (c : Collab) (user_id : ℤ) (date_iso : Option String) :
    Except String DayData :=
  match date_iso with
  | some d =>
      match parseIsoDate d with
      | some t => Except.ok (mkDayData c user_id t)
      | none => Except.error ("ValueError: Invalid isoformat string: " ++ d)
  | none => Except.ok (mkDayData c user_id c.todayIso)

/-! ## Validator (EvaluatorOptimizer.run, src/agentic/agents/evaluator_agent.py) -/

/-- `float(grams)` in the numeric block: `.skip` when grams is `None` (the
`if grams is not None` guard), `.val` on success, `.exn` where the
`except Exception` branch catches. -/
inductive GramsFloat where
  | skip
  | val (q : ℚ)
  | exn

/-- Dispatch of the numeric grams block on the current grams value. -/
def gramsFloat : EntVal → GramsFloat
  | .absent => .skip
  | .pynone => .skip
  | .num q => .val q
  | .int n => .val (n : ℚ)
  | .str g =>
      match pyFloat (pyStrip g) with
      | some q => .val q
      | none => .exn
  | .other => .exn

/-- String-grams normalisation: `grams.strip().lower().replace(" ", "")`,
then strip one trailing `g`. -/
def normGramsStr (g : String) : String :=
  let t := (pyStripList g.toList).map Char.toLower |>.filter (fun c => c ≠ ' ')
  String.mk (if t.getLast? = some 'g' then t.dropLast else t)

/-- The numeric checks of the validator (the part after the string branch).
The range-failure branches do not write `entities`, matching the source,
where the in-place dict mutation happened only in the string branch. -/
def evalNumeric (s : ConvState) : ConvState :=
  match gramsFloat s.entities.grams with
  | .skip => s
  | .val q =>
      if q ≤ 0 then
        { s with needs_clarification := true,
                 response := "The amount must be greater than 0g. How many grams?",
                 questions := ["How many grams?"] }
      else if q > 5000 then
        { s with needs_clarification := true,
                 response := "That seems too large. Did you mean a smaller amount in grams?",
                 questions := ["Please provide a reasonable grams amount (e.g., 50, 100, 200)."] }
      else { s with entities := { s.entities with grams := .num q } }
  | .exn =>
      { s with needs_clarification := true,
               response := "I couldn't interpret the grams value.",
               questions := ["How many grams?"] }

/-- `EvaluatorOptimizer.run`: normalise a textual grams entity (the in-place
`entities["grams"] = float(s)` mutation is visible in the state even on the
early-return paths), then apply the numeric checks. -/
def evaluatorRun (s : ConvState) : ConvState :=
  match s.entities.grams with
  | .str g =>
      match pyFloat (normGramsStr g) with
      | none =>
          { s with needs_clarification := true,
                   response := "I couldn't read the amount. How many grams?",
                   questions := ["How many grams?"] }
      | some q => evalNumeric { s with entities := { s.entities with grams := .num q } }
  | _ => evalNumeric s

/-! ## Clarification (ElicitationAgent.run, src/agentic/agents/elicitation_agent.py) -/

/-- The candidate-question list built by the per-intent checks. -/
def elicitQuestions (s : ConvState) : List String :=
  let entities := s.entities
  if s.intent = some "log_meal" then
    (if ¬ entities.food_id.truthy ∧ s.selected_food.isNone ∧ s.food_candidates.isEmpty then
       ["Which food would you like to log? You can say a name or provide food_id."]
     else [])
    ++ (if ¬ entities.grams.truthy then ["How many grams?"] else [])
    ++ (if ¬ entities.meal_type.truthy then
          ["Which meal was this for (breakfast/lunch/dinner/snack)?"]
        else [])
  else if s.intent = some "search_food" ∨ s.intent = some "scan_barcode" then
    (if s.intent = some "search_food" ∧ ¬ entities.food_name.truthy then
       ["What food would you like to search for?"]
     else [])
    ++ (if s.intent = some "scan_barcode" ∧ ¬ entities.upc.truthy then
          ["Please provide the UPC (12 digits)."]
        else [])
  else if s.intent = some "daily_summary" ∨ s.intent = some "recommend" then
    if ¬ entities.date.truthy then
      ["For which day? You can say 'today' or 'yesterday'."]
    else []
  else []

/-- The fallback question used when no per-intent check fired. -/
def genericQuestion : String := "Could you clarify your request with a bit more detail?"

/-- `ElicitationAgent.run`: reply with exactly the first candidate question
(or the generic fallback), overwriting `questions` and `response`. -/
def elicitationRun (s : ConvState) : ConvState :=
  let q0 :=
    match elicitQuestions s with
    | [] => genericQuestion
    | q :: _ => q
  { s with needs_clarification := true, questions := [q0], response := q0 }

/-! ## Task handlers -/

/-- `BarcodeAgent.run` (src/agentic/agents/barcode_agent.py). -/
def barcodeRun (c : Collab) (s : ConvState) : ConvState :=
  let upc := s.entities.upc
  if ¬ upc.truthy then
    { s with needs_clarification := true,
             questions := ["Please provide a UPC code to scan."],
             response := "I need a UPC code to look up the product. Please provide the barcode number." }
  else
    match tool_lookup_upc c (entValStr upc) with
    | [] =>
        { s with needs_clarification := true,
                 questions := ["Would you like to search by name instead?"],
                 response := "No food found with UPC " ++ entValStr upc ++
                   ". Would you like to search by name instead?" }
    | f :: fs =>
        { s with food_candidates := f :: fs, selected_food := some f,
                 response := "Found " ++ f.name ++ " (" ++ f.brand ++ "). " ++
                   fmtPyFloat f.calories ++ " calories per 100g." }

/-- `FoodSearchAgent.run` (src/agentic/agents/food_search_agent.py). -/
def searchRun (c : Collab) (s : ConvState) : ConvState :=
  let food_name := s.entities.food_name
  if ¬ food_name.truthy then
    { s with needs_clarification := true,
             questions := ["What food would you like to search for?"],
             response := "What food would you like to search for?" }
  else
    let foods := tool_search_food c (entValStr food_name) 5
    if foods.isEmpty then
      { s with response := "No foods found matching '" ++ entValStr food_name ++
                 "'. Try a different search term." }
    else
      { s with food_candidates := foods,
               response := "Found " ++ toString foods.length ++ " food items." }

/-- Tail of `LoggingAgent.run` once a food dict has been resolved from the
selection/candidates: require grams, then log with the
`entities.get("meal_type", "snack")` default (the raw grams entity is passed
through to the tool unconverted). -/
def loggingFinish (c : Collab) (s : ConvState) (food : FoodSum) : Except String ConvState :=
  let grams := s.entities.grams
  if ¬ grams.truthy then
    Except.ok { s with needs_clarification := true, questions := ["How many grams?"],
                       response := "How many grams of " ++ food.name ++
                         " would you like to log?" }
  else
    let meal_type := s.entities.meal_type.getD (.str "snack")
    match tool_log_meal c.db s.user_id food.id grams meal_type with
    | .error e => Except.ok { s with response := "Error logging meal: " ++ e }
    | .ok r =>
        Except.ok { s with log_entry := some r,
                           response := "Logged " ++ entValStr grams ++ "g of " ++
                             food.name ++ " (" ++ entValStr meal_type ++ ")." }

/-- `LoggingAgent.run` (src/agentic/agents/logging_agent.py).  The explicit
food_id branch converts with `int()`/`float()`, which raise on malformed
model-supplied entities (`Except.error`); the browse branch stores the
`tool_list_foods` suggestions as candidates. -/
def loggingRun (c : Collab) (s : ConvState) : Except String ConvState :=
  let entities := s.entities
  if entities.food_id.truthy then
    if ¬ entities.grams.truthy then
      Except.ok { s with needs_clarification := true, questions := ["How many grams?"],
                         response := "How many grams would you like to log?" }
    else
      let meal_type := entities.meal_type.getD (.str "snack")
      match pyIntOf entities.food_id with
      | .error e => Except.error e
      | .ok fid =>
          match pyFloatOf entities.grams with
          | .error e => Except.error e
          | .ok g =>
              match tool_log_meal c.db s.user_id fid (.num g) meal_type with
              | .error e => Except.ok { s with response := "Error logging meal: " ++ e }
              | .ok r =>
                  Except.ok { s with log_entry := some r,
                                     response := "Logged " ++ entValStr r.grams ++ "g of " ++
                                       r.food_name ++ " (" ++ entValStr r.meal_type ++ ")." }
  else if s.food_candidates.isEmpty && s.selected_food.isNone then
    Except.ok { s with needs_clarification := true,
                       questions := ["What food would you like to log? You can choose an ID from suggestions."],
                       food_candidates := tool_list_foods c 5,
                       response := "What food would you like to log?" }
  else
    match s.selected_food with
    | some food => loggingFinish c s food
    | none =>
        if s.food_candidates.length > 1 then
          Except.ok { s with needs_clarification := true,
                             questions := ["Which food (1-" ++ toString s.food_candidates.length ++ ")?"],
                             response := "Please specify which food item you'd like to log." }
        else
          match s.food_candidates with
          | food :: _ => loggingFinish c s food
          | [] => Except.error "TypeError: NoneType subscript"

/-! ## Analysis handler (AnalysisAgent.run, src/agentic/agents/analysis_agent.py) -/

/-- The pass marker of the goal-progress lines, exactly as the source file
encodes it (a mojibake of a check-mark emoji: U+00E2 U+0153 U+2026). -/
def passMark : String := "âœ…"

/-- The fail marker (U+00E2 U+0152). -/
def failMark : String := "âŒ"

/-- `status = pass if actual >= goal else fail`. -/
def statusMark (actual goal : ℚ) : String :=
  if actual ≥ goal then passMark else failMark

/-- `percentage = (actual / goal * 100) if goal > 0 else 0`. -/
def pctOf (actual goal : ℚ) : ℚ :=
  if goal > 0 then actual / goal * 100 else 0

/-- One iteration of the goal-progress loop: a line only when the nutrient is
a key of the totals dict. -/
def goalLine (t : Totals) (kg : String × ℚ) : List String :=
  match t.get? kg.1 with
  | none => []
  | some actual =>
      [statusMark actual kg.2 ++ " " ++ kg.1 ++ ": " ++ fmt1 actual ++ "/" ++
       fmt1 kg.2 ++ " (" ++ fmt1 (pctOf actual kg.2) ++ "%)\n"]

/-- The eight fixed nutrient lines the response enumerates (of the 34 keys
the totals dict carries). -/
def analysisTotalLines (t : Totals) : List String :=
  ["Calories: " ++ fmt1 t.calories ++ "\n",
   "Protein: " ++ fmt1 t.protein_g ++ "g\n",
   "Fat: " ++ fmt1 t.fat_g ++ "g\n",
   "Carbs: " ++ fmt1 t.carbs_g ++ "g\n",
   "Vitamin C: " ++ fmt1 t.vitamin_c_mg ++ "mg\n",
   "Calcium: " ++ fmt1 t.calcium_mg ++ "mg\n",
   "Iron: " ++ fmt1 t.iron_mg ++ "mg\n",
   "Magnesium: " ++ fmt1 t.magnesium_mg ++ "mg\n"]

/-- The response as the list of appended chunks (string concatenation in the
source associates into this join). -/
def analysisResponseLines (day : DayData) (gv : GoalsVal) : List String :=
  ["Daily Summary for " ++ day.date ++ ":\n",
   "Meals logged: " ++ toString day.meal_count ++ "\n"]
  ++ analysisTotalLines day.totals
  ++ (if gv.truthy then
        "\nGoal Progress:\n" :: ((gv.items.map (goalLine day.totals)).flatten)
      else [])

/-- The composed daily-summary response string. -/
def analysisResponseStr (day : DayData) (gv : GoalsVal) : String :=
  String.join (analysisResponseLines day gv)

/-- Date resolution of the analysis handler: `None`/"today"/"now" mean the
current date (a `None` argument to `tool_compute_day`), "yesterday" is
`date.today() - timedelta(days=1)` rendered in ISO form, anything else is
passed through as an explicit date string. -/
def analysisDateArg (c : Collab) (d : EntVal) : Option String :=
  if d = .str "today" ∨ d = .str "now" ∨ d = .pynone ∨ d = .absent then none
  else if d = .str "yesterday" then some c.yesterdayIso
  else some (entValStr d)

/-- `AnalysisAgent.run`.  The `"error" in day_data` guard of the source never
fires with the tools package's `tool_compute_day` (which returns no error
key and lets date ValueErrors propagate), so the only failure mode is the
raised exception. -/
def analysisRun (c : Collab) (s : ConvState) : Except String ConvState :=
  match tool_compute_day c s.user_id (analysisDateArg c s.entities.date) with
  | .error e => Except.error e
  | .ok day =>
      let goals := tool_get_user_goals c s.user_id
      Except.ok { s with day_data := some day, day_totals := some day.totals,
                         goals := some goals,
                         response := analysisResponseStr day goals }

/-! ## Recommendation handler (RecommendationAgent.run,
src/agentic/agents/recommendation_agent.py) -/

/-- Date resolution of the recommendation handler:
`entities.get("date") or date.today().isoformat()` — the literal entity value
(including the strings "today"/"yesterday") is passed through to
`tool_compute_day` whenever it is truthy. -/
def recommendDateArg (c : Collab) (d : EntVal) : String :=
  if d.truthy then entValStr d else c.todayIso

/-- `gaps[k] = float(goal) - float(totals.get(k, 0.0))`, kept when positive;
the error dict's string-valued entry is skipped by its `except: continue`. -/
def gapList (gv : GoalsVal) (t : Totals) : List (String × ℚ) :=
  gv.items.filterMap (fun kg =>
    let actual := (t.get? kg.1).getD 0
    let delta := kg.2 - actual
    if delta > 0 then some (kg.1, delta) else none)

/-- `sorted(gaps.keys(), key=lambda k: gaps[k], reverse=True)[:6]` — a stable
descending sort of the gap keys by gap size, keeping the first six. -/
def topGapKeys (gaps : List (String × ℚ)) : List String :=
  ((gaps.mergeSort (fun a b => decide (b.2 ≤ a.2))).map (·.1)).take 6

/-- Gap size of a key (keys are drawn from `gaps`). -/
def gapOf (gaps : List (String × ℚ)) (k : String) : ℚ :=
  ((gaps.find? (fun kv => kv.1 = k)).map (·.2)).getD 0

/-- Score and coverage of one food over the top gap keys: positive numeric
attributes contribute `min(value, gap) / max(gap, 1e-9)`. -/
def scoreFood (gaps : List (String × ℚ)) (keys : List String) (food : FoodN) :
    ℚ × List (String × ℚ) :=
  keys.foldl
    (fun acc key =>
      match food.attr? key with
      | some v =>
          if v > 0 then
            let covered := min v (gapOf gaps key)
            (acc.1 + covered / max (gapOf gaps key) (1 / 1000000000),
             acc.2 ++ [(key, covered)])
          else acc
      | none => acc)
    (0, [])

/-- `RecommendationAgent.run`.  The date entity is NOT resolved as in the
analysis handler: a truthy value is passed verbatim to `tool_compute_day`,
whose `datetime.fromisoformat` raises on the literal strings
"today"/"yesterday" that reach it. -/
def recommendRun (c : Collab) (s : ConvState) : Except String ConvState :=
  match tool_compute_day c s.user_id (some (recommendDateArg c s.entities.date)) with
  | .error e => Except.error e
  | .ok day =>
  let goals := tool_get_user_goals c s.user_id
  let gaps := gapList goals day.totals
  if gaps.isEmpty then
    Except.ok { s with response := "You're meeting your goals today. Nice work!" }
  else
    let top_gap_keys := topGapKeys gaps
    let ranked := c.recFoods.filterMap (fun food =>
      let sc := scoreFood gaps top_gap_keys food
      if sc.1 > 0 then some (sc.1, food, sc.2) else none)
    let picks := (ranked.mergeSort (fun a b => decide (b.1 ≤ a.1))).take 5
    if picks.isEmpty then
      Except.ok { s with
        response := "I couldn't find foods that improve your biggest gaps from the current list." }
    else
      let lines := "Recommendations (100g servings):" ::
        picks.map (fun p =>
          let why := String.intercalate ", "
            (p.2.2.map (fun kv => kv.1 ++ ": +" ++ fmt1 kv.2))
          "- " ++ p.2.1.name ++ " (" ++ p.2.1.brand ++ ") — covers " ++ why)
      let recs := picks.map (fun p =>
        { food_id := p.2.1.id, name := p.2.1.name, brand := p.2.1.brand,
          coverage := p.2.2, calories_per_100g := p.2.1.calories : RecItem })
      Except.ok { s with response := String.intercalate "\n" lines,
                         recommendations := recs }

/-! ## Intent extraction (OrchestratorAgent, src/agentic/agents/orchestrator.py) -/

/-- `_heuristic_intent`: regex/keyword entity extraction over the lowered,
stripped text (initialising every entity key to `None`), then the fixed
intent precedence.  The search branch slices the ORIGINAL `input_text`
(`state["input_text"][7:].strip()`). -/
def heuristicIntent (s : ConvState) : ConvState :=
  let text := pyStrip (pyLower s.input_text)
  let ents0 : Entities :=
    { food_name := .pynone,
      grams := match findGrams text with | some q => .num q | none => .pynone,
      upc := match findUpc text with | some u => .str u | none => .pynone,
      meal_type := match firstMealType text with | some m => .str m | none => .pynone,
      date := if pyContains text "yesterday" then .str "yesterday"
              else if pyContains text "today" then .str "today" else .pynone,
      food_id := match findFoodId text with | some n => .int n | none => .pynone }
  let p : String × Entities :=
    if hasAny text ["barcode", "upc", "scan"] then ("scan_barcode", ents0)
    else if pyStartsWith text "search " then
      ("search_food",
       { ents0 with food_name := .str (String.mk (pyStripList (s.input_text.toList.drop 7))) })
    else if hasAny text ["recommend", "suggest"] then
      ("recommend", { ents0 with date := entOr ents0.date (.str "today") })
    else if hasAny text ["summary", "report"] || text == "today" || text == "yesterday" then
      ("daily_summary", { ents0 with date := entOr ents0.date (.str "today") })
    else if hasAny text ["log", "ate", "consumed"] || ents0.food_id.truthy || ents0.grams.truthy then
      ("log_meal", ents0)
    else ("search_food", ents0)
  { s with intent := some p.1, entities := p.2, confidence := 1 / 2 }

/-- `OrchestratorAgent.run`: the model path on success writes the reply's
intent, entities and confidence (`float(result.get("confidence", 0.7))`);
every exception, and an absent model, falls back to the heuristic. -/
def orchestratorRun (c : Collab) (s : ConvState) : ConvState :=
  if c.llmPresent then
    match c.classify with
    | .exc => heuristicIntent s
    | .ok i e cf => { s with intent := i, entities := e, confidence := cf.getD (7 / 10) }
  else heuristicIntent s

/-! ## The routing graph (create_graph / run_agent, src/agentic/graph.py) -/

/-- Net flat-state effect of the llm/tools cycle before the post handler runs
(present only when a model was bound): the llm node overwrites `response`
with the assistant content; the tool node touches only `messages`. -/
def applyLoop (c : Collab) (s : ConvState) : ConvState :=
  if c.llmPresent then { s with response := c.loopContent } else s

/-- The tail of every path: evaluator, then the conditional edge
`needs_elicitation` into the elicitation node or END. -/
def finalize (s : ConvState) : ConvState :=
  let s' := evaluatorRun s
  if s'.needs_clarification then elicitationRun s' else s'

/-- `route_by_intent` composed with the routed pipeline's handler: the
barcode node is direct; the four llm pipelines pass through the cycle's net
effect (`applyLoop`) before their post handler; anything else (including an
unset or unrecognised intent) goes to the search pipeline. -/
def routeHandler (c : Collab) (s1 : ConvState) : Except String ConvState :=
  match s1.intent with
  | some "scan_barcode" => Except.ok (barcodeRun c s1)
  | some "log_meal" => loggingRun c (applyLoop c s1)
  | some "daily_summary" => analysisRun c (applyLoop c s1)
  | some "recommend" => recommendRun c (applyLoop c s1)
  | _ => Except.ok (searchRun c (applyLoop c s1))

/-- One full turn of `run_agent`: fresh initial state, orchestrator, routed
handler, evaluator, conditional elicitation.  `Except.error` is an uncaught
Python exception escaping the turn. -/
def runTurn (c : Collab) (uid : ℤ) (msg : String) : Except String ConvState :=
  (routeHandler c (orchestratorRun c (initState uid msg))).map finalize

/-- Final state of a turn, for concrete witnesses (junk on a raised turn). -/
def finalOf (e : Except String ConvState) : ConvState :=
  match e with
  | .ok s => s
  | .error _ => initState 0 ""

/-! ## The llm-node/tools-node cycle (add_agent_tool_pipeline,
src/agentic/graph.py) -/

/-- The model's k-th assistant turn in one pipeline's cycle: either it
requests tool calls or it returns plain content. -/
inductive ModelTurn where
  | toolCalls
  | content
deriving DecidableEq

/-- Position in one pipeline's subgraph: about to invoke the llm node for
round `k`, executing the tools node for round `k`, or at the post (finalize)
node. -/
inductive LoopNode where
  | llm (k : ℕ)
  | tools (k : ℕ)
  | post
deriving DecidableEq

/-- One edge of the cycle as wired by `add_agent_tool_pipeline`:
`tools_condition` routes an assistant turn with tool calls to the tools node
and a plain reply to the post node; the tools node always returns to the llm
node.  There is no round counter anywhere in the wiring. -/
def loopStep (f : ℕ → ModelTurn) : LoopNode → LoopNode
  | .llm k =>
      match f k with
      | .toolCalls => .tools k
      | .content => .post
  | .tools k => .llm (k + 1)
  | .post => .post

/-- The node reached after `n` graph steps, starting at the llm node. -/
def loopRun (f : ℕ → ModelTurn) (n : ℕ) : LoopNode :=
  (loopStep f)^[n] (.llm 0)

/-- The model strategy that requests tool calls at every round. -/
def alwaysTools : ℕ → ModelTurn := fun _ => ModelTurn.toolCalls

/-! ## Helper predicates and concrete fixtures for the claims -/

/-- A grams clarification question, as the validator phrases them. -/
def gramsQuestionSet (qs : List String) : Prop :=
  qs = ["How many grams?"] ∨
  qs = ["Please provide a reasonable grams amount (e.g., 50, 100, 200)."]

instance (qs : List String) : Decidable (gramsQuestionSet qs) := by
  unfold gramsQuestionSet
  infer_instance

/-- What one pipeline stage may do to the clarification fields: leave both
untouched, or clarify with exactly one question; confidence is never
touched. -/
def QFrame (s s' : ConvState) : Prop :=
  s'.confidence = s.confidence ∧
  ((s'.needs_clarification = s.needs_clarification ∧ s'.questions = s.questions) ∨
   (s'.needs_clarification = true ∧ ∃ q, s'.questions = [q]))

/-- A food summary row used by concrete runs. -/
def foodOats : FoodSum :=
  { id := 1, name := "Oats", brand := "Generic", upc := some "036000291452",
    calories := 389, protein_g := 17, fat_g := 7, carbs_g := 66 }

/-- A one-user, one-food database slice. -/
def dbOne : Db :=
  { users := [1], foods := [(1, "Oats")], nextLogId := 42,
    nowIso := "2026-10-12T09:00:00" }

/-- Baseline collaborator behaviour: no language model, empty lookups, a
fixed clock. -/
def baseCollab : Collab :=
  { llmPresent := false, classify := .exc, loopContent := "",
    nameResults := fun _ => [], upcResults := fun _ => [], listFoods := [],
    db := dbOne, mealRows := [], goalsDb := .goals [], recFoods := [],
    todayIso := "2026-10-12", yesterdayIso := "2026-10-11" }

/-- The post-orchestrator state of that turn, for the witness below. -/
def s1scan : ConvState :=
  let s0 := initState 1 "scan 036000291452"
  let e0 : Entities := { upc := EntVal.str "036000291452" }
  { s0 with intent := some "scan_barcode", entities := e0 }

/-- Model-reply entities for the C8 counterexample turn. -/
def entsBarcode : Entities := { upc := EntVal.str "036000291452" }

/-- A model run whose classification reply carries confidence 3.5. -/
def cC8 : Collab :=
  { baseCollab with
      llmPresent := true
      classify := .ok (some "scan_barcode") entsBarcode (some (7 / 2))
      upcResults := fun _ => [foodOats] }

/-- A state whose grams entity is the textual "100g". -/
def exS100 : ConvState :=
  let s0 := initState 7 "log"
  let e0 : Entities := { grams := EntVal.str "100g" }
  { s0 with entities := e0 }

/-- A state whose grams entity does not parse. -/
def exSbad : ConvState :=
  let s0 := initState 7 "log"
  let e0 : Entities := { grams := EntVal.str "12x" }
  { s0 with entities := e0 }

/-- Model-reply entities for the C5 counterexample turn: a valid food name
and an unparsable textual grams. -/
def entsC5 : Entities := { food_name := EntVal.str "oats", grams := EntVal.str "abc" }

def cC5 : Collab :=
  { baseCollab with
      llmPresent := true
      classify := .ok (some "search_food") entsC5 none
      nameResults := fun _ => [foodOats]
      loopContent := "done" }

/-- A food row rich in zinc for the analysis fixtures. -/
def zincFood : FoodT :=
  { name := "Oysters", calories := 80, protein_g := 9, fat_g := 2, carbs_g := 5,
    zinc_mg := some 30 }

/-- One logged meal of that food on the fixture's current date. -/
def rowC6 : MealRow :=
  { id := 1, user_id := 1, date := "2026-10-12", logged_at := "2026-10-12T08:00:00",
    food := zincFood, grams := 100, meal_type := some "snack" }

/-- Collaborators for the daily-summary fixtures: one logged meal, one goal. -/
def cC6 : Collab :=
  { baseCollab with
      mealRows := [rowC6]
      goalsDb := .goals [("protein_g", 50)] }

/-- The pre-analysis state of the C6 witness turn. -/
def sInC6 : ConvState :=
  let s0 := initState 1 "summary"
  let e0 : Entities := { date := EntVal.str "today" }
  { s0 with intent := some "daily_summary", entities := e0 }


/-! # Theorems -/

/-! ## C1 — the llm/tools cycle has no fixed round-trip bound -/

/-- Under a model that always requests tool calls, the cycle alternates
between the llm and tools nodes forever. -/
theorem loopRun_allTools_ne_post (f : ℕ → ModelTurn)
    (hf : ∀ k, f k = ModelTurn.toolCalls) (n : ℕ) :
    loopRun f n ≠ LoopNode.post := by
  induction n with
  | zero => simp [loopRun]
  | succ n ih =>
      have hstep : loopRun f (n + 1) = loopStep f (loopRun f n) := by
        simp [loopRun, Function.iterate_succ_apply']
      rw [hstep]
      cases h : loopRun f n with
      | llm k => simp [loopStep, hf k]
      | tools k => simp [loopStep]
      | post => exact absurd h ih

/-- When the model requests tool calls at each of the first `k` rounds, the
graph is back at the llm node for round `k` after `2 k` steps. -/
theorem loopRun_reach_llm (f : ℕ → ModelTurn) (k : ℕ)
    (h : ∀ j, j < k → f j = ModelTurn.toolCalls) :
    loopRun f (2 * k) = LoopNode.llm k := by
  induction k with
  | zero => simp [loopRun]
  | succ k ih =>
      have h1 : loopRun f (2 * k) = LoopNode.llm k :=
        ih (fun j hj => h j (by omega))
      have h2 : loopRun f (2 * k + 1) = LoopNode.tools k := by
        have : loopRun f (2 * k + 1) = loopStep f (loopRun f (2 * k)) := by
          simp [loopRun, Function.iterate_succ_apply']
        rw [this, h1]
        simp [loopStep, h k (by omega)]
      have h3 : loopRun f (2 * k + 2) = loopStep f (loopRun f (2 * k + 1)) := by
        simp [loopRun, Function.iterate_succ_apply']
      have : 2 * (k + 1) = 2 * k + 2 := by omega
      rw [this, h3, h2]
      simp [loopStep]

/-- C1 (counterexample): the claim's bounded-exit property is false of the
wiring in `add_agent_tool_pipeline` — there is no round-trip count (six or
any other) after which the llm/tools cycle is guaranteed to have exited to
the post node: the model strategy that always requests tool calls never
exits; in particular it has not exited after 6 steps. -/
theorem C1_no_fixed_bound :
    loopRun alwaysTools 6 ≠ LoopNode.post ∧
    ¬ ∃ N : ℕ, ∀ f : ℕ → ModelTurn, loopRun f N = LoopNode.post := by
  constructor
  · exact loopRun_allTools_ne_post alwaysTools (fun _ => rfl) 6
  · rintro ⟨N, hN⟩
    exact loopRun_allTools_ne_post alwaysTools (fun _ => rfl) N (hN alwaysTools)

/-- C1 (amended): the cycle built by `add_agent_tool_pipeline` reaches the
handler's finalize (post) node iff the model eventually returns a reply
without tool calls; no iteration bound exists in the code. -/
theorem C1_loop_exit_iff (f : ℕ → ModelTurn) :
    (∃ n, loopRun f n = LoopNode.post) ↔ (∃ k, f k = ModelTurn.content) := by
  constructor
  · rintro ⟨n, hn⟩
    by_contra hc
    push_neg at hc
    have hall : ∀ k, f k = ModelTurn.toolCalls := by
      intro k
      cases hf : f k with
      | toolCalls => rfl
      | content => exact absurd hf (hc k)
    exact loopRun_allTools_ne_post f hall n hn
  · rintro ⟨k, hk⟩
    have hex : ∃ k, f k = ModelTurn.content := ⟨k, hk⟩
    let k0 := Nat.find hex
    have hk0 : f k0 = ModelTurn.content := Nat.find_spec hex
    have hlt : ∀ j, j < k0 → f j = ModelTurn.toolCalls := by
      intro j hj
      cases hf : f j with
      | toolCalls => rfl
      | content => exact absurd hf (Nat.find_min hex hj)
    refine ⟨2 * k0 + 1, ?_⟩
    have h1 : loopRun f (2 * k0) = LoopNode.llm k0 := loopRun_reach_llm f k0 hlt
    have h2 : loopRun f (2 * k0 + 1) = loopStep f (loopRun f (2 * k0)) := by
      simp [loopRun, Function.iterate_succ_apply']
    rw [h2, h1]
    simp [loopStep, hk0]

/-! ## C9 — the validator transform is idempotent -/

/-- Second application of the validator on a state whose grams entity is
already a float: every numeric branch reproduces itself. -/
theorem evaluatorRun_num_fixed (t : ConvState) (q : ℚ)
    (ht : t.entities.grams = EntVal.num q) :
    evaluatorRun (evalNumeric t) = evalNumeric t := by
  by_cases h1 : q ≤ 0
  · simp [evalNumeric, gramsFloat, ht, h1, evaluatorRun]
  · by_cases h2 : q > 5000
    · simp [evalNumeric, gramsFloat, ht, h1, h2, evaluatorRun]
    · simp [evalNumeric, gramsFloat, ht, h1, h2, evaluatorRun]

/-- C9: `validate(validate(s)) == validate(s)` for every state — re-running
the validator on its own output changes nothing, including the
needs_clarification, questions, response and entities fields (the equality
is of the whole state record). -/
theorem C9_validator_idempotent (s : ConvState) :
    evaluatorRun (evaluatorRun s) = evaluatorRun s := by
  cases hg : s.entities.grams with
  | absent => simp [evaluatorRun, evalNumeric, gramsFloat, hg]
  | pynone => simp [evaluatorRun, evalNumeric, gramsFloat, hg]
  | other => simp [evaluatorRun, evalNumeric, gramsFloat, hg]
  | num q =>
      have h0 : evaluatorRun s = evalNumeric s := by simp [evaluatorRun, hg]
      rw [h0]
      exact evaluatorRun_num_fixed s q hg
  | int n =>
      have h0 : evaluatorRun s = evalNumeric s := by simp [evaluatorRun, hg]
      rw [h0]
      by_cases h1 : (n : ℚ) ≤ 0
      · simp [evalNumeric, gramsFloat, hg, h1, evaluatorRun]
      · by_cases h2 : (n : ℚ) > 5000
        · simp [evalNumeric, gramsFloat, hg, h1, h2, evaluatorRun]
        · have hgood : evalNumeric s =
              { s with entities := { s.entities with grams := EntVal.num (n : ℚ) } } := by
            simp [evalNumeric, gramsFloat, hg, h1, h2]
          rw [hgood]
          simp [evaluatorRun, evalNumeric, gramsFloat, h1, h2]
  | str g =>
      cases hp : pyFloat (normGramsStr g) with
      | none => simp [evaluatorRun, hg, hp]
      | some q =>
          have h0 : evaluatorRun s =
              evalNumeric { s with entities := { s.entities with grams := EntVal.num q } } := by
            simp [evaluatorRun, hg, hp]
          rw [h0]
          exact evaluatorRun_num_fixed
            { s with entities := { s.entities with grams := EntVal.num q } } q rfl

/-! ## C5 — the validator's grams rules -/

/-- C5 (amended, validator level): textual grams such as "100g" and
" 100 G " normalise to the float 100.0; an unparsable grams string, a
non-positive value and a value over 5000 each make the validator set
needs_clarification with a grams question; an in-range parsed value replaces
the raw entity and raises no clarification. -/
theorem C5_validator_grams_rules (s : ConvState) :
    (s.entities.grams = EntVal.str "100g" →
      (evaluatorRun s).entities.grams = EntVal.num 100) ∧
    (s.entities.grams = EntVal.str " 100 G " →
      (evaluatorRun s).entities.grams = EntVal.num 100) ∧
    (∀ g, s.entities.grams = EntVal.str g → pyFloat (normGramsStr g) = none →
      (evaluatorRun s).needs_clarification = true ∧
      gramsQuestionSet (evaluatorRun s).questions) ∧
    (∀ q, s.entities.grams = EntVal.num q → q ≤ 0 →
      (evaluatorRun s).needs_clarification = true ∧
      gramsQuestionSet (evaluatorRun s).questions) ∧
    (∀ q, s.entities.grams = EntVal.num q → q > 5000 →
      (evaluatorRun s).needs_clarification = true ∧
      gramsQuestionSet (evaluatorRun s).questions) ∧
    (∀ g q, s.entities.grams = EntVal.str g → pyFloat (normGramsStr g) = some q →
      0 < q → q ≤ 5000 →
      (evaluatorRun s).entities.grams = EntVal.num q ∧
      (evaluatorRun s).needs_clarification = s.needs_clarification) := by
  have c1 : ¬ ((100 : ℚ) ≤ 0) := by norm_num
  have c2 : ¬ ((100 : ℚ) > 5000) := by norm_num
  refine ⟨?_, ?_, ?_, ?_, ?_, ?_⟩
  · intro h
    have hp : pyFloat (normGramsStr "100g") = some 100 := by decide
    simp [evaluatorRun, h, hp, evalNumeric, gramsFloat, c1, c2]
  · intro h
    have hp : pyFloat (normGramsStr " 100 G ") = some 100 := by decide
    simp [evaluatorRun, h, hp, evalNumeric, gramsFloat, c1, c2]
  · intro g h hp
    simp [evaluatorRun, h, hp, gramsQuestionSet]
  · intro q h hq
    simp [evaluatorRun, h, evalNumeric, gramsFloat, hq, gramsQuestionSet]
  · intro q h hq
    have hq' : ¬ q ≤ 0 := by linarith
    simp [evaluatorRun, h, evalNumeric, gramsFloat, hq', hq, gramsQuestionSet]
  · intro g q h hp h0 h5
    have h0' : ¬ q ≤ 0 := not_le.mpr h0
    have h5' : ¬ q > 5000 := not_lt.mpr h5
    simp [evaluatorRun, h, hp, evalNumeric, gramsFloat, h0', h5']

/-! ## Stage frame lemmas: how each node treats the clarification fields -/

theorem QFrame.trans {a b c : ConvState} (h1 : QFrame a b) (h2 : QFrame b c) :
    QFrame a c := by
  refine ⟨h2.1.trans h1.1, ?_⟩
  rcases h2.2 with ⟨hn, hq⟩ | hr
  · rcases h1.2 with ⟨hn', hq'⟩ | ⟨hn', hq'⟩
    · exact Or.inl ⟨hn.trans hn', hq.trans hq'⟩
    · exact Or.inr ⟨hn.trans hn', hq ▸ hq'⟩
  · exact Or.inr hr

theorem qframe_barcode (c : Collab) (s : ConvState) : QFrame s (barcodeRun c s) := by
  unfold QFrame barcodeRun
  dsimp only
  repeat' split
  all_goals refine ⟨rfl, ?_⟩
  all_goals first
    | exact Or.inl ⟨rfl, rfl⟩
    | exact Or.inr ⟨rfl, _, rfl⟩

theorem qframe_search (c : Collab) (s : ConvState) : QFrame s (searchRun c s) := by
  unfold QFrame searchRun
  dsimp only
  repeat' split
  all_goals refine ⟨rfl, ?_⟩
  all_goals first
    | exact Or.inl ⟨rfl, rfl⟩
    | exact Or.inr ⟨rfl, _, rfl⟩

theorem qframe_loggingFinish (c : Collab) (s : ConvState) (food : FoodSum)
    (s' : ConvState) (h : loggingFinish c s food = Except.ok s') : QFrame s s' := by
  unfold loggingFinish at h
  dsimp only at h
  repeat' split at h
  all_goals first
    | exact Except.noConfusion h
    | (injection h with h; subst h; exact ⟨rfl, Or.inl ⟨rfl, rfl⟩⟩)
    | (injection h with h; subst h; exact ⟨rfl, Or.inr ⟨rfl, _, rfl⟩⟩)

theorem qframe_logging (c : Collab) (s s' : ConvState)
    (h : loggingRun c s = Except.ok s') : QFrame s s' := by
  unfold loggingRun at h
  dsimp only at h
  repeat' split at h
  all_goals first
    | exact Except.noConfusion h
    | exact qframe_loggingFinish c s _ s' h
    | (injection h with h; subst h; exact ⟨rfl, Or.inl ⟨rfl, rfl⟩⟩)
    | (injection h with h; subst h; exact ⟨rfl, Or.inr ⟨rfl, _, rfl⟩⟩)

theorem qframe_analysis (c : Collab) (s s' : ConvState)
    (h : analysisRun c s = Except.ok s') : QFrame s s' := by
  unfold analysisRun at h
  dsimp only at h
  repeat' split at h
  all_goals first
    | exact Except.noConfusion h
    | (injection h with h; subst h; exact ⟨rfl, Or.inl ⟨rfl, rfl⟩⟩)

theorem qframe_recommend (c : Collab) (s s' : ConvState)
    (h : recommendRun c s = Except.ok s') : QFrame s s' := by
  unfold recommendRun at h
  dsimp only at h
  repeat' split at h
  all_goals first
    | exact Except.noConfusion h
    | (injection h with h; subst h; exact ⟨rfl, Or.inl ⟨rfl, rfl⟩⟩)

theorem qframe_evaluator (s : ConvState) : QFrame s (evaluatorRun s) := by
  unfold QFrame evaluatorRun evalNumeric
  dsimp only
  repeat' split
  all_goals refine ⟨rfl, ?_⟩
  all_goals first
    | exact Or.inl ⟨rfl, rfl⟩
    | exact Or.inr ⟨rfl, _, rfl⟩

theorem qframe_applyLoop (c : Collab) (s : ConvState) : QFrame s (applyLoop c s) := by
  unfold QFrame applyLoop
  split
  · exact ⟨rfl, Or.inl ⟨rfl, rfl⟩⟩
  · exact ⟨rfl, Or.inl ⟨rfl, rfl⟩⟩

theorem qframe_route (c : Collab) (s1 s2 : ConvState)
    (h : routeHandler c s1 = Except.ok s2) : QFrame s1 s2 := by
  unfold routeHandler at h
  split at h
  · injection h with h; subst h; exact qframe_barcode c s1
  · exact (qframe_applyLoop c s1).trans (qframe_logging c _ s2 h)
  · exact (qframe_applyLoop c s1).trans (qframe_analysis c _ s2 h)
  · exact (qframe_applyLoop c s1).trans (qframe_recommend c _ s2 h)
  · injection h with h; subst h
    exact (qframe_applyLoop c s1).trans (qframe_search c _)

theorem orchestrator_flags (c : Collab) (s : ConvState) :
    (orchestratorRun c s).needs_clarification = s.needs_clarification ∧
    (orchestratorRun c s).questions = s.questions := by
  unfold orchestratorRun heuristicIntent
  dsimp only
  repeat' split
  all_goals exact ⟨rfl, rfl⟩

theorem elicitation_shape (s : ConvState) :
    (elicitationRun s).needs_clarification = true ∧
    (elicitationRun s).questions = [(elicitationRun s).response] ∧
    (elicitationRun s).confidence = s.confidence := by
  unfold elicitationRun
  exact ⟨rfl, rfl, rfl⟩

/-- The invariant shape of every state leaving `finalize`, given the
questions list was empty while no clarification was pending. -/
theorem finalize_invariant (s2 : ConvState)
    (hq : s2.needs_clarification = false → s2.questions = []) :
    ((finalize s2).needs_clarification = true ↔ (finalize s2).questions.length = 1) ∧
    ((finalize s2).needs_clarification = false → (finalize s2).questions = []) ∧
    ((finalize s2).needs_clarification = true →
      (finalize s2).questions = [(finalize s2).response]) ∧
    (finalize s2).confidence = s2.confidence := by
  unfold finalize
  cases hne : (evaluatorRun s2).needs_clarification with
  | true =>
      rw [if_pos hne]
      have he := elicitation_shape (evaluatorRun s2)
      refine ⟨?_, ?_, ?_, ?_⟩
      · rw [he.1, he.2.1]; simp
      · intro hf; rw [he.1] at hf; cases hf
      · intro _; exact he.2.1
      · rw [he.2.2]; exact (qframe_evaluator s2).1
  | false =>
      rw [if_neg (by rw [hne]; exact Bool.false_ne_true)]
      have hf := qframe_evaluator s2
      have hqe : (evaluatorRun s2).questions = [] := by
        rcases hf.2 with ⟨hn, hqs⟩ | ⟨hn, _⟩
        · rw [hqs]; exact hq (hne ▸ hn.symm)
        · rw [hn] at hne; cases hne
      refine ⟨?_, fun _ => hqe, ?_, hf.1⟩
      · rw [hne, hqe]; simp
      · intro hcon; rw [hcon] at hne; cases hne

/-! ## C2 / C10 / C8 — final-state invariants of a full turn -/

/-- Decomposition of a successful turn: the routed handler succeeded and the
final state is its finalization. -/
theorem runTurn_ok_elim (c : Collab) (uid : ℤ) (msg : String) (s : ConvState)
    (h : runTurn c uid msg = Except.ok s) :
    ∃ s2, routeHandler c (orchestratorRun c (initState uid msg)) = Except.ok s2 ∧
      s = finalize s2 := by
  unfold runTurn at h
  cases hh : routeHandler c (orchestratorRun c (initState uid msg)) with
  | error e => rw [hh] at h; exact Except.noConfusion h
  | ok s2 =>
      rw [hh] at h
      injection h with h
      exact ⟨s2, rfl, h.symm⟩

/-- The empty-questions precondition holds of every routed handler output. -/
theorem handler_output_qinv (c : Collab) (uid : ℤ) (msg : String) (s2 : ConvState)
    (hh : routeHandler c (orchestratorRun c (initState uid msg)) = Except.ok s2) :
    s2.needs_clarification = false → s2.questions = [] := by
  intro hf
  have hof := orchestrator_flags c (initState uid msg)
  have hframe := qframe_route c _ s2 hh
  rcases hframe.2 with ⟨hn, hqs⟩ | ⟨hn, _⟩
  · rw [hqs, hof.2]; rfl
  · rw [hf] at hn; cases hn

/-- C2: for every input message and every collaborator behaviour, a completed
turn satisfies needs_clarification = true iff questions has exactly one
element, and questions is empty when needs_clarification is false. -/
theorem C2_clarification_invariant (c : Collab) (uid : ℤ) (msg : String)
    (s : ConvState) (h : runTurn c uid msg = Except.ok s) :
    (s.needs_clarification = true ↔ s.questions.length = 1) ∧
    (s.needs_clarification = false → s.questions = []) := by
  obtain ⟨s2, hh, rfl⟩ := runTurn_ok_elim c uid msg s h
  have hq := handler_output_qinv c uid msg s2 hh
  exact ⟨(finalize_invariant s2 hq).1, (finalize_invariant s2 hq).2.1⟩

/-- C10: whenever a completed turn ends needing clarification, the user-facing
response is exactly the single question — the elicitation node overwrites any
handler-composed response with the question it selects. -/
theorem C10_response_equals_question (c : Collab) (uid : ℤ) (msg : String)
    (s : ConvState) (h : runTurn c uid msg = Except.ok s)
    (hn : s.needs_clarification = true) : s.questions = [s.response] := by
  obtain ⟨s2, hh, rfl⟩ := runTurn_ok_elim c uid msg s h
  have hq := handler_output_qinv c uid msg s2 hh
  exact (finalize_invariant s2 hq).2.2.1 hn

/-- C8 (amended): the final confidence of a completed turn is 0.5 (heuristic
fallback), 0.7 (model success with no model-supplied confidence), or exactly
the model-supplied float — which the code never clamps to [0, 1]. -/
theorem C8_confidence_values (c : Collab) (uid : ℤ) (msg : String)
    (s : ConvState) (h : runTurn c uid msg = Except.ok s) :
    s.confidence = 1 / 2 ∨ s.confidence = 7 / 10 ∨
      ∃ i e, c.classify = ClassifyResult.ok i e (some s.confidence) := by
  obtain ⟨s2, hh, rfl⟩ := runTurn_ok_elim c uid msg s h
  have hq := handler_output_qinv c uid msg s2 hh
  have hconf1 : (finalize s2).confidence = s2.confidence :=
    (finalize_invariant s2 hq).2.2.2
  have hconf2 : s2.confidence = (orchestratorRun c (initState uid msg)).confidence :=
    (qframe_route c _ s2 hh).1
  rw [hconf1, hconf2]
  unfold orchestratorRun
  cases hl : c.llmPresent with
  | false => left; simp [heuristicIntent]
  | true =>
      cases hc : c.classify with
      | exc => left; simp [heuristicIntent]
      | ok i e cf =>
          cases cf with
          | none => right; left; simp
          | some q => right; right; exact ⟨i, e, by simp [hc, EntVal.getD]⟩

/-! ## C3 — a barcode miss ends as the generic clarification, not the
name-search offer -/

/-- The validator touches only the grams entity and the clarification flags:
everything the elicitation step will branch on is preserved, and a pending
clarification is never cleared. -/
theorem evaluator_preserves (s : ConvState) :
    (evaluatorRun s).intent = s.intent ∧
    (evaluatorRun s).entities.upc = s.entities.upc ∧
    (evaluatorRun s).entities.food_name = s.entities.food_name ∧
    (evaluatorRun s).selected_food = s.selected_food ∧
    (evaluatorRun s).food_candidates = s.food_candidates ∧
    (s.needs_clarification = true → (evaluatorRun s).needs_clarification = true) := by
  unfold evaluatorRun evalNumeric
  dsimp only
  repeat' split
  all_goals refine ⟨rfl, rfl, rfl, rfl, rfl, ?_⟩
  all_goals intro h
  all_goals first | rfl | exact h

/-- Finalizing any clarifying state whose intent is scan_barcode with a
truthy upc surfaces the generic fallback question: the per-intent table has
no unmet check left, and the elicitation node overwrites both `questions`
and `response`. -/
theorem finalize_scanbarcode_generic (t : ConvState)
    (hn : t.needs_clarification = true)
    (hi : t.intent = some "scan_barcode")
    (hu : t.entities.upc.truthy = true) :
    (finalize t).needs_clarification = true ∧
    (finalize t).questions = [genericQuestion] ∧
    (finalize t).response = genericQuestion := by
  have hp := evaluator_preserves t
  have hev : (evaluatorRun t).needs_clarification = true := hp.2.2.2.2.2 hn
  unfold finalize
  rw [if_pos hev]
  have hq : elicitQuestions (evaluatorRun t) = [] := by
    unfold elicitQuestions
    have hupc : (evaluatorRun t).entities.upc.truthy = true := by rw [hp.2.1]; exact hu
    rw [hp.1, hi]
    simp [hupc]
  simp [elicitationRun, hq]

/-- C3 (amended): when a scan_barcode turn has a upc entity but the UPC
lookup returns no matches, the turn ends as a clarification — but its single
question and response are the generic "Could you clarify your request with a
bit more detail?", because the elicitation node recomputes the question from
its per-intent table (upc present ⇒ no table entry) and overwrites the
barcode handler's name-search offer. -/
theorem C3_barcode_miss_generic (c : Collab) (s1 : ConvState)
    (hintent : s1.intent = some "scan_barcode")
    (hupc : s1.entities.upc.truthy = true)
    (hlookup : c.upcResults (entValStr s1.entities.upc) = []) :
    (finalize (barcodeRun c s1)).needs_clarification = true ∧
    (finalize (barcodeRun c s1)).questions = [genericQuestion] ∧
    (finalize (barcodeRun c s1)).response = genericQuestion := by
  have hb : barcodeRun c s1 =
      { s1 with needs_clarification := true,
                questions := ["Would you like to search by name instead?"],
                response := "No food found with UPC " ++ entValStr s1.entities.upc ++
                  ". Would you like to search by name instead?" } := by
    unfold barcodeRun
    dsimp only
    rw [if_neg (by rw [hupc]; simp), tool_lookup_upc, hlookup]
  rw [hb]
  exact finalize_scanbarcode_generic _ rfl (by simpa using hintent) (by simpa using hupc)

/-- C3 (counterexample): the concrete heuristic turn "scan 036000291452"
against an empty UPC table ends with the generic clarification — not the
name-search offer the claim requires. -/
theorem C3_counterexample :
    (finalOf (runTurn baseCollab 1 "scan 036000291452")).needs_clarification = true ∧
    (finalOf (runTurn baseCollab 1 "scan 036000291452")).questions = [genericQuestion] ∧
    (finalOf (runTurn baseCollab 1 "scan 036000291452")).response = genericQuestion ∧
    genericQuestion ≠ "Would you like to search by name instead?" :=
  ⟨rfl, rfl, rfl, by decide⟩

theorem C3_witness :
    (finalize (barcodeRun baseCollab s1scan)).needs_clarification = true ∧
    (finalize (barcodeRun baseCollab s1scan)).questions = [genericQuestion] ∧
    (finalize (barcodeRun baseCollab s1scan)).response = genericQuestion :=
  C3_barcode_miss_generic baseCollab s1scan rfl (by decide) rfl

/-! ## C2 / C10 / C8 witnesses and the C8 counterexample -/

theorem C2_witness :
    runTurn baseCollab 1 "log it" = Except.ok (finalOf (runTurn baseCollab 1 "log it")) ∧
    (((finalOf (runTurn baseCollab 1 "log it")).needs_clarification = true ↔
        (finalOf (runTurn baseCollab 1 "log it")).questions.length = 1) ∧
      ((finalOf (runTurn baseCollab 1 "log it")).needs_clarification = false →
        (finalOf (runTurn baseCollab 1 "log it")).questions = [])) :=
  ⟨rfl, C2_clarification_invariant baseCollab 1 "log it"
    (finalOf (runTurn baseCollab 1 "log it")) rfl⟩

theorem C10_witness :
    (finalOf (runTurn baseCollab 2 "hello there")).needs_clarification = true ∧
    (finalOf (runTurn baseCollab 2 "hello there")).questions =
      [(finalOf (runTurn baseCollab 2 "hello there")).response] :=
  ⟨rfl, C10_response_equals_question baseCollab 2 "hello there"
    (finalOf (runTurn baseCollab 2 "hello there")) rfl rfl⟩

theorem C8_witness :
    (finalOf (runTurn baseCollab 3 "search oats")).confidence = 1 / 2 ∨
    (finalOf (runTurn baseCollab 3 "search oats")).confidence = 7 / 10 ∨
      ∃ i e, baseCollab.classify = ClassifyResult.ok i e
        (some (finalOf (runTurn baseCollab 3 "search oats")).confidence) :=
  C8_confidence_values baseCollab 3 "search oats"
    (finalOf (runTurn baseCollab 3 "search oats")) rfl

/-- C8 (counterexample): a model-supplied confidence of 3.5 reaches the final
state unchanged — the code never clamps it into [0, 1]. -/
theorem C8_counterexample :
    (finalOf (runTurn cC8 1 "scan it")).confidence = 7 / 2 ∧
    ¬ ((finalOf (runTurn cC8 1 "scan it")).confidence ≤ 1) := by
  constructor
  · rfl
  · decide

/-! ## C5 witness and counterexample -/

theorem C5_witness :
    (evaluatorRun exS100).entities.grams = EntVal.num 100 ∧
    ((evaluatorRun exSbad).needs_clarification = true ∧
      gramsQuestionSet (evaluatorRun exSbad).questions) :=
  ⟨(C5_validator_grams_rules exS100).1 rfl,
   (C5_validator_grams_rules exSbad).2.2.1 "12x" rfl (by decide)⟩

/-- C5 (counterexample): on a search turn with an unparsable grams entity the
validator flags clarification with its grams question, but the turn's final
single question (and response) is the generic clarification — the
elicitation node overwrites the grams question, so the turn does not end
with a grams clarification question as the claim states. -/
theorem C5_counterexample :
    (finalOf (runTurn cC5 1 "search oats")).needs_clarification = true ∧
    (finalOf (runTurn cC5 1 "search oats")).questions = [genericQuestion] ∧
    ¬ gramsQuestionSet (finalOf (runTurn cC5 1 "search oats")).questions :=
  ⟨rfl, rfl, by decide⟩

/-! ## C7 — the snack default is defeated by the present-but-None key -/

/-- C7 (code evaluated at the failing input): the heuristic turn
"ate 100 g food_id=1" logs immediately (no clarification), but the logged
meal_type is Python None — `entities.get("meal_type", "snack")` returns the
present None value, and the explicit None bypasses the column default — so
the response renders "(None)" instead of "(snack)". -/
theorem C7_meal_type_not_snack :
    runTurn baseCollab 1 "ate 100 g food_id=1" =
      Except.ok (finalOf (runTurn baseCollab 1 "ate 100 g food_id=1")) ∧
    (finalOf (runTurn baseCollab 1 "ate 100 g food_id=1")).log_entry =
      some { id := 42, user_id := 1, food_id := 1, food_name := "Oats",
             grams := EntVal.num 100, meal_type := EntVal.pynone,
             logged_at := "2026-10-12T09:00:00" } ∧
    EntVal.pynone ≠ EntVal.str "snack" ∧
    (finalOf (runTurn baseCollab 1 "ate 100 g food_id=1")).needs_clarification = false ∧
    (finalOf (runTurn baseCollab 1 "ate 100 g food_id=1")).response =
      "Logged 100.0g of Oats (None)." :=
  ⟨rfl, rfl, by decide, rfl, rfl⟩

/-! ## C4 — recommendation does not resolve the date as analysis does -/

/-- C4 (code evaluated at the failing input): the heuristic recommend turn
defaults the date entity to the literal string "today"; the recommendation
handler passes it verbatim to `tool_compute_day`, whose
`datetime.fromisoformat` raises, so the whole turn errors out — while the
analysis handler resolves the same "today" to the current date and its turn
completes. -/
theorem C4_date_divergence :
    runTurn baseCollab 1 "recommend foods" =
      Except.error "ValueError: Invalid isoformat string: today" ∧
    analysisDateArg baseCollab (EntVal.str "today") = none ∧
    recommendDateArg baseCollab (EntVal.str "today") = "today" ∧
    parseIsoDate "today" = none ∧
    runTurn baseCollab 1 "summary today" =
      Except.ok (finalOf (runTurn baseCollab 1 "summary today")) ∧
    (finalOf (runTurn baseCollab 1 "summary today")).day_data.map (fun d => d.date) =
      some "2026-10-12" :=
  ⟨rfl, rfl, rfl, rfl, rfl, rfl⟩

/-! ## C6 — the daily-summary response and the goal-progress lines -/

set_option maxHeartbeats 2000000 in
/-- C6 (amended): a successful analysis turn composes its response from the
meal-count line, a FIXED EIGHT-nutrient subset of the totals (calories,
protein, fat, carbs, vitamin C, calcium, iron, magnesium — not all 34
available totals), and — for each goals-map nutrient that is a totals key —
an actual/goal/percentage line whose pass marker appears exactly when
actual ≥ goal. -/
theorem C6_daily_summary_lines (c : Collab) (s s' : ConvState)
    (h : analysisRun c s = Except.ok s') :
    ∃ day, s'.day_data = some day ∧
      s'.response = analysisResponseStr day c.goalsDb ∧
      ("Meals logged: " ++ toString day.meal_count ++ "\n")
        ∈ analysisResponseLines day c.goalsDb ∧
      (∀ l ∈ analysisTotalLines day.totals, l ∈ analysisResponseLines day c.goalsDb) ∧
      (∀ k g a, (k, g) ∈ c.goalsDb.items → day.totals.get? k = some a →
        (statusMark a g ++ " " ++ k ++ ": " ++ fmt1 a ++ "/" ++ fmt1 g ++
          " (" ++ fmt1 (pctOf a g) ++ "%)\n") ∈ analysisResponseLines day c.goalsDb) ∧
      (∀ a g : ℚ, statusMark a g = passMark ↔ a ≥ g) := by
  unfold analysisRun at h
  split at h
  · exact Except.noConfusion h
  · rename_i day heq
    injection h with h
    subst h
    refine ⟨day, rfl, rfl, ?_, ?_, ?_, ?_⟩
    · unfold analysisResponseLines
      simp
    · intro l hl
      unfold analysisResponseLines
      simp only [List.mem_append]
      exact Or.inl (Or.inr hl)
    · intro k g a hm ha
      have htr : c.goalsDb.truthy = true := by
        cases hgv : c.goalsDb with
        | err => rfl
        | goals l =>
            rw [hgv] at hm
            unfold GoalsVal.items at hm
            cases l with
            | nil => cases hm
            | cons x xs => rfl
      have hline : (statusMark a g ++ " " ++ k ++ ": " ++ fmt1 a ++ "/" ++ fmt1 g ++
          " (" ++ fmt1 (pctOf a g) ++ "%)\n") ∈
            ((c.goalsDb.items.map (goalLine day.totals)).flatten) := by
        rw [List.mem_flatten]
        refine ⟨goalLine day.totals (k, g), List.mem_map_of_mem _ hm, ?_⟩
        unfold goalLine
        rw [ha]
        simp
      unfold analysisResponseLines
      rw [if_pos htr]
      simp only [List.mem_append, List.mem_cons]
      exact Or.inr (Or.inr hline)
    · intro a g
      by_cases hag : a ≥ g
      · simp [statusMark, hag]
      · simp only [statusMark, hag, if_false]
        constructor
        · intro hcon
          exact absurd hcon (by decide)
        · intro hcon
          exact hcon.elim

set_option maxRecDepth 10000 in
/-- C6 (counterexample): in the concrete turn "summary" the day aggregation
carries a non-zero zinc_mg total, yet the composed response never mentions
zinc — the response does not list all nutrient totals available in the
day-aggregation result. -/
theorem C6_counterexample :
    runTurn cC6 1 "summary" = Except.ok (finalOf (runTurn cC6 1 "summary")) ∧
    (finalOf (runTurn cC6 1 "summary")).day_data.map (fun d => d.totals.get? "zinc_mg") =
      some (some 30) ∧
    pyContains (pyLower (finalOf (runTurn cC6 1 "summary")).response) "zinc" = false :=
  ⟨rfl, rfl, rfl⟩

theorem C6_witness :
    ∃ day, (finalOf (analysisRun cC6 sInC6)).day_data = some day ∧
      (finalOf (analysisRun cC6 sInC6)).response = analysisResponseStr day cC6.goalsDb ∧
      ("Meals logged: " ++ toString day.meal_count ++ "\n")
        ∈ analysisResponseLines day cC6.goalsDb ∧
      (∀ l ∈ analysisTotalLines day.totals, l ∈ analysisResponseLines day cC6.goalsDb) ∧
      (∀ k g a, (k, g) ∈ cC6.goalsDb.items → day.totals.get? k = some a →
        (statusMark a g ++ " " ++ k ++ ": " ++ fmt1 a ++ "/" ++ fmt1 g ++
          " (" ++ fmt1 (pctOf a g) ++ "%)\n") ∈ analysisResponseLines day cC6.goalsDb) ∧
      (∀ a g : ℚ, statusMark a g = passMark ↔ a ≥ g) :=
  C6_daily_summary_lines cC6 sInC6 (finalOf (analysisRun cC6 sInC6)) rfl
